import Mathlib

/-!
Verification development for the workout-journal application.

The definitions below are a shallow embedding of the program's code:

* `get_history` embeds the `GET /history` handler of
  `src/backend/history_api.py` (window resolution from `period`, the
  `user_id`/`gte`/`lte` filters on the `workout_sessions` table, the
  client-side filter on a truthy `completed_at`, and the
  `sorted(Counter(dates).items())` aggregation).
* `create_daytype` embeds the `POST /daytypes` handler of
  `src/backend/customizations_api.py`.
* `addWorkoutSubmit`, `finishClicked` and `doneClicked` embed the three
  Streamlit event handlers of `src/app.py` (the Add Workout submit block,
  the `finish_clicked` block and the `done_clicked` block), acting on the
  session-state fields they read and write plus the two Supabase tables.
  Responses of the external Supabase store (insert returning no data,
  update matching no rows, raised exceptions, stale read-backs) are
  modelled as explicit outcome inputs to each handler; calls to
  `st.warning` / `st.error` are modelled as an emitted message list.

Dates are calendar triples compared lexicographically, which agrees with
the code's comparison of zero-padded ISO `YYYY-MM-DD` strings.  Python
floats (entry weights) are only ever stored and displayed, never computed
with, so they are carried as an opaque integer payload.
-/

/-- A calendar date `YYYY-MM-DD`.  The code stores dates as zero-padded ISO
strings whose lexicographic order coincides with the lexicographic order on
`(year, month, day)`. -/
structure Date where
  year : Nat
  month : Nat
  day : Nat
deriving DecidableEq, Repr

/-- Lexicographic order on dates: the order the store's `gte`/`lte` filters
use on ISO date strings. -/
def dateLe (a b : Date) : Bool :=
  decide (a.year < b.year) ||
    (decide (a.year = b.year) &&
      (decide (a.month < b.month) ||
        (decide (a.month = b.month) && decide (a.day ≤ b.day))))

lemma dateLe_trans : ∀ a b c : Date, dateLe a b → dateLe b c → dateLe a c := by
  intro a b c hab hbc
  simp only [dateLe, Bool.or_eq_true, Bool.and_eq_true, decide_eq_true_eq] at *
  omega

lemma dateLe_total : ∀ a b : Date, dateLe a b || dateLe b a := by
  intro a b
  simp only [dateLe, Bool.or_eq_true, Bool.and_eq_true, decide_eq_true_eq]
  omega

/-- `calendar.monthrange(y, m)[1]`: number of days in a month. -/
def monthrange (y m : Nat) : Nat :=
  if m = 2 then (if (y % 4 = 0 ∧ y % 100 ≠ 0) ∨ y % 400 = 0 then 29 else 28)
  else if m = 4 ∨ m = 6 ∨ m = 9 ∨ m = 11 then 30
  else 31

/-- Step one day back, `date - timedelta(days=1)`. -/
def prevDay (d : Date) : Date :=
  if d.day > 1 then ⟨d.year, d.month, d.day - 1⟩
  else if d.month > 1 then ⟨d.year, d.month - 1, monthrange d.year (d.month - 1)⟩
  else ⟨d.year - 1, 12, 31⟩

/-- `date - timedelta(days=n)`. -/
def subDays : Date → Nat → Date
  | d, 0 => d
  | d, n + 1 => subDays (prevDay d) n

/-- A row of the `workout_sessions` table:
`{id, user_id, date, daytype, completed_at}`. -/
structure StoredSession where
  id : Nat
  user_id : Nat
  date : Date
  daytype : String
  completed_at : Option String
deriving DecidableEq, Repr

/-- A row of the `workout_entries` table. -/
structure StoredEntry where
  session_id : Nat
  exercise_name : String
  weight : Int
  rep : Nat
deriving DecidableEq, Repr

/-- The tabular store reached through Supabase.  `nextId` models the
generated, strictly increasing primary key, so list order on `sessions`
is `created_at` order. -/
structure DB where
  sessions : List StoredSession
  entries : List StoredEntry
  nextId : Nat
deriving DecidableEq, Repr

/-- Python truthiness of an optional string column value: `None` and `""`
are falsy (`row.get("completed_at")` / `if not completed_at`). -/
def truthy : Option String → Bool
  | some v => !(v == "")
  | none => false

/-- The `GET /history` response payload
`{total_sessions, total_days, sessions_by_day}`. -/
structure HistoryResponse where
  total_sessions : Nat
  total_days : Nat
  sessions_by_day : List (Date × Nat)
deriving DecidableEq, Repr

/-- The `period` preset handling of `get_history`
(`history_api.py` lines 35-46): a truthy period equal to `week`, `month`
or `year` overwrites `from_date`/`to_date`; any other value leaves the
supplied bounds untouched (there is no `else` raising an error). -/
def resolveWindow (today : Date) (period : Option String)
    (from_date to_date : Option Date) : Option Date × Option Date :=
  match period with
  | some p =>
    if p = "" then (from_date, to_date)
    else if p = "week" then (some (subDays today 7), some today)
    else if p = "month" then
      (some ⟨today.year, today.month, 1⟩,
       some ⟨today.year, today.month, monthrange today.year today.month⟩)
    else if p = "year" then
      (some ⟨today.year, 1, 1⟩, some ⟨today.year, 12, 31⟩)
    else (from_date, to_date)
  | none => (from_date, to_date)

/-- The optional `gte("date", from_date)` filter. -/
def applyFrom (fd : Option Date) (r : StoredSession) : Bool :=
  match fd with
  | some d => dateLe d r.date
  | none => true

/-- The optional `lte("date", to_date)` filter. -/
def applyTo (td : Option Date) (r : StoredSession) : Bool :=
  match td with
  | some d => dateLe r.date d
  | none => true

/-- The `GET /history` handler (`history_api.py` lines 25-82).  `table` is
the `workout_sessions` table; the query applies `eq("user_id", …)` and the
optional date-range filters, then rows with a falsy `completed_at` are
dropped, and the remaining dates are counted per day and sorted
ascending (`sorted(Counter(dates).items())`). -/
def get_history (uid : Nat) (today : Date) (period : Option String)
    (from_date to_date : Option Date) (table : List StoredSession) : HistoryResponse :=
  let window := resolveWindow today period from_date to_date
  let rows := ((table.filter (fun r => r.user_id == uid)).filter
      (applyFrom window.1)).filter (applyTo window.2)
  let sessions := rows.filter (fun r => truthy r.completed_at)
  let dates := sessions.map (fun r => r.date)
  let sessions_by_day :=
    (dates.dedup.mergeSort dateLe).map (fun day => (day, dates.count day))
  ⟨sessions.length, dates.dedup.length, sessions_by_day⟩

/-- Python `str.strip()` whitespace test for the characters occurring in
these handlers. -/
def isSpaceChar (c : Char) : Bool :=
  c == ' ' || c == '\t' || c == '\n' || c == '\r'

/-- Python `str.strip()`. -/
def pyStrip (s : String) : String :=
  String.mk (((s.data.dropWhile isSpaceChar).reverse.dropWhile isSpaceChar).reverse)

/-- Python `str.lower()` (ASCII case folding, all the handlers need). -/
def pyLower (s : String) : String :=
  String.mk (s.data.map Char.toLower)

/-- `_normalize` of `customizations_api.py`: `value.strip().lower()`. -/
def pyNormalize (s : String) : String :=
  pyLower (pyStrip s)

/-- `PREDEFINED_DAYTYPES` of `customizations_api.py`. -/
def PREDEFINED_DAYTYPES : List String := ["push", "pull", "leg", "arm"]

/-- A row of the `user_daytypes` table. -/
structure DaytypeRow where
  user_id : Nat
  daytype_name : String
  daytype_key : String
deriving DecidableEq, Repr

/-- Result of `POST /daytypes`: either `HTTPException(status_code, detail)`
or the `{daytype, created}` payload. -/
inductive DaytypeResult
  | httpError (status : Nat) (detail : String)
  | ok (daytype : String) (created : Bool)
deriving DecidableEq, Repr

/-- The `POST /daytypes` handler `create_daytype`
(`customizations_api.py` lines 64-90): trim the name, reject an empty
result; normalize it and reject built-in collisions; return the user's
existing row idempotently when the normalized key already exists for this
user (`limit(1)` select = first matching row); otherwise insert. -/
def create_daytype (store : List DaytypeRow) (uid : Nat) (payloadName : String) :
    DaytypeResult × List DaytypeRow :=
  let name := pyStrip payloadName
  if name = "" then
    (DaytypeResult.httpError 400 "Day type name is required.", store)
  else
    let daytype_key := pyNormalize name
    if daytype_key ∈ PREDEFINED_DAYTYPES then
      (DaytypeResult.httpError 400 "That day type already exists.", store)
    else
      match store.find? (fun r => r.user_id == uid && r.daytype_key == daytype_key) with
      | some row => (DaytypeResult.ok row.daytype_name false, store)
      | none => (DaytypeResult.ok name true, store ++ [⟨uid, name, daytype_key⟩])

/-- One row of the buffered display table `st.session_state["workout_rows"]`
(`{Date, Daytype, Exercise Name, Weight, Rep}`). -/
structure WorkoutRow where
  date : Date
  daytype : String
  exercise_name : String
  weight : Int
  rep : Nat
deriving DecidableEq, Repr

/-- The Streamlit session-state fields the Session Workflow Engine reads
and writes (spec §3 Workflow State plus the durable `last_session_id`
hint and the `show_history` toggle).  The transient `workout_notice`
toast is popped on the following rerun and does not feed any handler, so
it is not carried. -/
structure EngineState where
  workout_rows : List WorkoutRow
  active_daytype : Option String
  active_date : Option Date
  active_session_id : Option Nat
  workout_completed : Bool
  last_session_id : Option Nat
  show_history : Bool
deriving DecidableEq, Repr

/-- The state of a fresh session (`app.py` lines 597-601, 734-745):
empty buffer, nothing active, not completed. -/
def initState : EngineState :=
  ⟨[], none, none, none, false, none, false⟩

/-- A user-visible `st.warning` / `st.error` call made by a handler. -/
inductive Msg
  | warning (text : String)
  | error (text : String)
deriving DecidableEq, Repr

/-- `ADD_EXERCISE_OPTION` of `app.py`. -/
def ADD_EXERCISE_OPTION : String := "➕ Add custom exercise"

/-- UI inputs of one Add Workout submission. -/
structure SubmitInput where
  entry_daytype : String
  entry_date : Date
  entry_exercise : String
  entry_weight : Int
  entry_rep : Nat
deriving DecidableEq, Repr

/-- Store response to the session INSERT (`app.py` lines 1106-1113):
the insert may return the created row, store it while returning no data
(e.g. a return-minimal policy), or store nothing and return no data
(e.g. a policy rejection).  The code only inspects `session_insert.data`. -/
inductive SessionInsertReply
  | returned
  | storedNoData
  | rejectedNoData
deriving DecidableEq, Repr

/-- External outcomes of one Add Workout submission: token availability
(`ensure_access_token`), the session-insert response, and whether the
entry insert raised (caught into `st.error`, entry not stored). -/
structure SubmitOutcome where
  hasToken : Bool
  sessionReply : SessionInsertReply
  entryError : Option String
deriving DecidableEq, Repr

/-- The `(user_id, date, daytype)` filter of the recovery SELECT
(`app.py` lines 1116-1124). -/
def sessionMatches (uid : Nat) (dt : Date) (d : String) (r : StoredSession) : Bool :=
  r.user_id == uid && r.date == dt && r.daytype == d

/-- `order("created_at", desc=True).limit(1)`: the most recently created
matching session row (list order is creation order). -/
def latestMatching (db : DB) (uid : Nat) (dt : Date) (d : String) : Option Nat :=
  ((db.sessions.filter (sessionMatches uid dt d)).getLast?).map (fun r => r.id)

/-- INSERT into `workout_sessions`, returning the generated id. -/
def insertSession (db : DB) (uid : Nat) (dt : Date) (d : String) : DB × Nat :=
  ({ db with
      sessions := db.sessions ++ [⟨db.nextId, uid, dt, d, none⟩],
      nextId := db.nextId + 1 },
   db.nextId)

/-- INSERT into `workout_entries`. -/
def insertEntry (db : DB) (sid : Nat) (ex : String) (w : Int) (rp : Nat) : DB :=
  { db with entries := db.entries ++ [⟨sid, ex, w, rp⟩] }

/-- Number of session rows matching a `(user, date, daytype)` tuple. -/
def countMatching (sessions : List StoredSession) (uid : Nat) (dt : Date) (d : String) : Nat :=
  (sessions.filter (sessionMatches uid dt d)).length

/-- The Add Workout submit handler (`app.py` lines 1006-1141): the
placeholder-exercise guard; closing history and clearing the completed
flag; pinning `active_daytype`/`active_date` when no session is active
and locking the appended row to the pinned values; appending to the local
buffer; then idempotent persistence — reuse `active_session_id` when
cached, otherwise INSERT a session and fall back to SELECT-ing the most
recent matching row when the insert returns no data, caching the id when
one is found; finally INSERT the entry row when a session id is known.
The `supabase is not None` guard is taken as satisfied (the app is
configured); a missing access token surfaces an error and skips
persistence, as in the code. -/
def addWorkoutSubmit (uid : Nat) (s : EngineState) (db : DB)
    (inp : SubmitInput) (o : SubmitOutcome) : EngineState × DB × List Msg :=
  if inp.entry_exercise = ADD_EXERCISE_OPTION then
    (s, db, [Msg.error "Select or save an exercise before adding a workout."])
  else
    let s1 := { s with show_history := false, workout_completed := false }
    let s2 :=
      if s1.active_daytype.isSome && s1.active_date.isSome then s1
      else { s1 with
              active_daytype := some inp.entry_daytype,
              active_date := some inp.entry_date }
    let entryDaytype := s2.active_daytype.getD inp.entry_daytype
    let entryDate := s2.active_date.getD inp.entry_date
    let s3 := { s2 with
        workout_rows := s2.workout_rows ++
          [⟨entryDate, entryDaytype, inp.entry_exercise, inp.entry_weight, inp.entry_rep⟩] }
    if o.hasToken = false then
      (s3, db, [Msg.error "You are not authenticated for inserts. Please log in again."])
    else
      match s3.active_session_id with
      | some sid =>
        match o.entryError with
        | none => (s3, insertEntry db sid inp.entry_exercise inp.entry_weight inp.entry_rep, [])
        | some m => (s3, db, [Msg.error ("Database insert failed: " ++ m)])
      | none =>
        let attempt : DB × Option Nat :=
          match o.sessionReply with
          | SessionInsertReply.returned =>
            ((insertSession db uid entryDate entryDaytype).1,
             some (insertSession db uid entryDate entryDaytype).2)
          | SessionInsertReply.storedNoData =>
            ((insertSession db uid entryDate entryDaytype).1,
             latestMatching (insertSession db uid entryDate entryDaytype).1 uid entryDate entryDaytype)
          | SessionInsertReply.rejectedNoData =>
            (db, latestMatching db uid entryDate entryDaytype)
        match attempt.2 with
        | some sid =>
          let s4 := { s3 with active_session_id := some sid }
          match o.entryError with
          | none =>
            (s4, insertEntry attempt.1 sid inp.entry_exercise inp.entry_weight inp.entry_rep, [])
          | some m => (s4, attempt.1, [Msg.error ("Database insert failed: " ++ m)])
        | none => (s3, attempt.1, [])

/-- Store response to the completion UPDATE (`app.py` lines 1029-1044):
the update may raise (caught into `st.error`), match no rows
(`update_result.data` empty), or apply. -/
inductive UpdateReply
  | exn (msg : String)
  | noRows
  | updated
deriving DecidableEq, Repr

/-- External outcomes of one Finish Workout click: token availability, the
UPDATE response, the timestamp written, and the read-back confirmation
(`confirm_result.data`: `none` = no row returned, `some v` = a row whose
`completed_at` is `v`). -/
structure FinishOutcome where
  hasToken : Bool
  now : String
  reply : UpdateReply
  readBack : Option (Option String)
deriving DecidableEq, Repr

/-- UPDATE `workout_sessions` SET `completed_at` WHERE `id = sid`. -/
def markCompleted (db : DB) (sid : Nat) (ts : String) : DB :=
  { db with
      sessions := db.sessions.map
        (fun r => if r.id == sid then { r with completed_at := some ts } else r) }

/-- The Finish Workout handler (`app.py` lines 1009-1055): read the active
session id, close history, set the completed flag, then — only when a
token and the id are present — UPDATE `completed_at`, warning when no rows
were updated, and on success read the row back and warn when its
`completed_at` is still falsy; finally clear the active day type, date and
session id and record the read id as `last_session_id`.  When the id (or
the token) is absent, the whole persistence block is skipped and nothing
is emitted. -/
def finishClicked (s : EngineState) (db : DB) (o : FinishOutcome) :
    EngineState × DB × List Msg :=
  let lastSessionId := s.active_session_id
  let s1 := { s with show_history := false, workout_completed := true }
  let persisted : DB × List Msg :=
    match lastSessionId with
    | some sid =>
      if o.hasToken then
        match o.reply with
        | UpdateReply.exn m => (db, [Msg.error ("Failed to mark session complete: " ++ m)])
        | UpdateReply.noRows => (db, [Msg.warning "Finish Workout did not update any session rows."])
        | UpdateReply.updated =>
          let db1 := markCompleted db sid o.now
          let completedAt : Option String :=
            match o.readBack with
            | some v => v
            | none => none
          if truthy completedAt then (db1, [])
          else (db1, [Msg.warning "Finish Workout completed, but completed_at is still empty."])
      else (db, [])
    | none => (db, [])
  ({ s1 with
      active_daytype := none,
      active_date := none,
      active_session_id := none,
      last_session_id := lastSessionId },
   persisted.1, persisted.2)

/-- The Done handler (`app.py` lines 1178-1190): clear the completed flag,
the buffered rows, all active-session identifiers and the history panel.
It issues no store call at all. -/
def doneClicked (s : EngineState) (db : DB) : EngineState × DB :=
  ({ s with
      workout_completed := false,
      workout_rows := [],
      active_session_id := none,
      active_daytype := none,
      active_date := none,
      show_history := false },
   db)

/-- `finish_disabled` (`app.py` line 980): the Finish Workout button is
disabled while the buffer is empty. -/
def finish_disabled (workout_rows : List WorkoutRow) : Bool :=
  workout_rows.length == 0

/-- The spec §3 Workflow State projection
`{buffered_rows, active_day_type, active_date, active_session_id,
completed_flag}` of an engine state. -/
def workflowProj (s : EngineState) :
    List WorkoutRow × Option String × Option Date × Option Nat × Bool :=
  (s.workout_rows, s.active_daytype, s.active_date, s.active_session_id, s.workout_completed)

/-- A UI event reaching the Engine: an Add Workout submission, a click on
the (guarded) Finish Workout button, or a click on Done. -/
inductive UiAction
  | submitClick (inp : SubmitInput) (o : SubmitOutcome)
  | finishClick (o : FinishOutcome)
  | doneClick
deriving DecidableEq, Repr

/-- One UI event step.  A disabled button cannot be clicked, so the Finish
handler runs only when `finish_disabled` is false. -/
def stepAction (uid : Nat) : EngineState × DB → UiAction → EngineState × DB
  | (s, db), UiAction.submitClick inp o =>
    ((addWorkoutSubmit uid s db inp o).1, (addWorkoutSubmit uid s db inp o).2.1)
  | (s, db), UiAction.finishClick o =>
    if finish_disabled s.workout_rows then (s, db)
    else ((finishClicked s db o).1, (finishClicked s db o).2.1)
  | (s, db), UiAction.doneClick => doneClicked s db

/-- Run a sequence of UI events from the fresh state. -/
def runActions (uid : Nat) (db0 : DB) (acts : List UiAction) : EngineState × DB :=
  acts.foldl (stepAction uid) (initState, db0)

/-- Run a sequence of Add Workout submissions. -/
def runSubmits (uid : Nat) (xs : List (SubmitInput × SubmitOutcome))
    (s : EngineState) (db : DB) : EngineState × DB :=
  xs.foldl
    (fun acc x => ((addWorkoutSubmit uid acc.1 acc.2 x.1 x.2).1,
                   (addWorkoutSubmit uid acc.1 acc.2 x.1 x.2).2.1))
    (s, db)

/-- A submission of the C1 scenario: fixed day type and date, a real
exercise, an available token, and a store that keeps the inserted session
row (whether or not the insert response carries it). -/
def validSubmit (d : String) (dt : Date) (x : SubmitInput × SubmitOutcome) : Prop :=
  x.1.entry_daytype = d ∧ x.1.entry_date = dt ∧
  x.1.entry_exercise ≠ ADD_EXERCISE_OPTION ∧
  x.2.hasToken = true ∧ x.2.sessionReply ≠ SessionInsertReply.rejectedNoData

instance (d : String) (dt : Date) (x : SubmitInput × SubmitOutcome) :
    Decidable (validSubmit d dt x) := by
  unfold validSubmit; infer_instance

lemma sessionsByDay_sum (dates : List Date) :
    (((dates.dedup.mergeSort dateLe).map (fun day => (day, dates.count day))).map
        (fun x => x.2)).sum = dates.length := by
  rw [List.map_map]
  have hperm := (List.mergeSort_perm dates.dedup dateLe).map
    ((fun x : Date × Nat => x.2) ∘ (fun day => (day, dates.count day)))
  rw [hperm.sum_eq]
  simpa [Function.comp] using List.sum_map_count_dedup_eq_length dates

lemma sessionsByDay_sorted (dates : List Date) :
    ((dates.dedup.mergeSort dateLe).map (fun day => (day, dates.count day))).Pairwise
      (fun a b => dateLe a.1 b.1 = true ∧ a.1 ≠ b.1) := by
  rw [List.pairwise_map]
  have hs : (dates.dedup.mergeSort dateLe).Pairwise (fun a b => dateLe a b = true) :=
    List.sorted_mergeSort dateLe_trans dateLe_total dates.dedup
  have hn : (dates.dedup.mergeSort dateLe).Nodup :=
    ((List.mergeSort_perm dates.dedup dateLe).symm).nodup (List.nodup_dedup dates)
  exact (hs.and hn).imp (fun h => ⟨h.1, h.2⟩)

lemma filter_middle_of_neg {α : Type} (p : α → Bool) (pre post : List α) (r : α)
    (h : p r = false) :
    (pre ++ r :: post).filter p = (pre ++ post).filter p := by
  simp [List.filter_append, List.filter_cons, h]

lemma filter_applyFrom_none (l : List StoredSession) : l.filter (applyFrom none) = l :=
  List.filter_eq_self.mpr (fun _ _ => rfl)

lemma filter_applyTo_none (l : List StoredSession) : l.filter (applyTo none) = l :=
  List.filter_eq_self.mpr (fun _ _ => rfl)

/-- C4: in every `GET /history` response the `sessions_by_day` counts sum
to `total_sessions`, `total_days` is the number of `sessions_by_day`
entries, the entries are sorted by date in strictly ascending order, and a
user with zero completed sessions gets
`{total_sessions: 0, total_days: 0, sessions_by_day: []}`. -/
theorem history_totals_consistent_c4 (uid : Nat) (today : Date) (period : Option String)
    (from_date to_date : Option Date) (table : List StoredSession) :
    ((get_history uid today period from_date to_date table).sessions_by_day.map
        (fun x => x.2)).sum
      = (get_history uid today period from_date to_date table).total_sessions
  ∧ (get_history uid today period from_date to_date table).total_days
      = (get_history uid today period from_date to_date table).sessions_by_day.length
  ∧ (get_history uid today period from_date to_date table).sessions_by_day.Pairwise
      (fun a b => dateLe a.1 b.1 = true ∧ a.1 ≠ b.1)
  ∧ ((∀ r ∈ table, truthy r.completed_at = false) →
      get_history uid today period from_date to_date table = ⟨0, 0, []⟩) := by
  refine ⟨?_, ?_, ?_, ?_⟩
  · simp only [get_history]
    rw [sessionsByDay_sum]
    simp
  · simp only [get_history]
    rw [List.length_map, (List.mergeSort_perm _ dateLe).length_eq]
  · simp only [get_history]
    exact sessionsByDay_sorted _
  · intro h
    have hsess :
        ((((table.filter (fun r => r.user_id == uid)).filter
            (applyFrom (resolveWindow today period from_date to_date).1)).filter
            (applyTo (resolveWindow today period from_date to_date).2)).filter
            (fun r => truthy r.completed_at)) = [] := by
      rw [List.filter_eq_nil_iff]
      intro a ha
      have hmem : a ∈ table :=
        List.mem_of_mem_filter (List.mem_of_mem_filter (List.mem_of_mem_filter ha))
      simp [h a hmem]
    simp only [get_history]
    rw [hsess]
    simp

/-- C5: a session row whose `completed_at` is null or empty contributes to
no part of any `GET /history` response, for every combination of `period`
and `from_date`/`to_date`: deleting such a row from the table leaves the
response unchanged. -/
theorem history_excludes_uncompleted_c5 (uid : Nat) (today : Date) (period : Option String)
    (from_date to_date : Option Date) (pre post : List StoredSession) (r : StoredSession)
    (h : truthy r.completed_at = false) :
    get_history uid today period from_date to_date (pre ++ r :: post)
      = get_history uid today period from_date to_date (pre ++ post) := by
  simp only [get_history]
  rw [List.filter_filter, List.filter_filter, List.filter_filter,
      List.filter_filter, List.filter_filter, List.filter_filter,
      filter_middle_of_neg _ pre post r (by simp [h])]

/-- C5 witness: an uncompleted session row on the queried date changes
nothing in the concrete weekly response. -/
theorem history_excludes_uncompleted_c5_w :
    get_history 1 ⟨2024, 1, 10⟩ (some "week") none none
        [⟨1, 1, ⟨2024, 1, 9⟩, "push", some "t"⟩, ⟨2, 1, ⟨2024, 1, 9⟩, "push", none⟩]
      = get_history 1 ⟨2024, 1, 10⟩ (some "week") none none
        [⟨1, 1, ⟨2024, 1, 9⟩, "push", some "t"⟩] :=
  history_excludes_uncompleted_c5 1 ⟨2024, 1, 10⟩ (some "week") none none
    [⟨1, 1, ⟨2024, 1, 9⟩, "push", some "t"⟩] [] ⟨2, 1, ⟨2024, 1, 9⟩, "push", none⟩ rfl

/-- C9: `GET /history` never rejects an unrecognized `period`: any value
outside `{week, month, year}` applies no preset window — the response is
the one computed from the supplied `from_date`/`to_date`, and with no
bounds supplied the window is unbounded (every completed row of the user
is counted regardless of its date). -/
theorem history_unknown_period_c9 (uid : Nat) (today : Date) (from_date to_date : Option Date)
    (table : List StoredSession) (p : String)
    (hp : p ≠ "week" ∧ p ≠ "month" ∧ p ≠ "year") :
    get_history uid today (some p) from_date to_date table
      = get_history uid today none from_date to_date table
  ∧ (get_history uid today (some p) none none table).total_sessions
      = ((table.filter (fun r => r.user_id == uid)).filter
          (fun r => truthy r.completed_at)).length := by
  obtain ⟨h1, h2, h3⟩ := hp
  have hw : ∀ fd td : Option Date, resolveWindow today (some p) fd td = (fd, td) := by
    intro fd td
    by_cases he : p = "" <;> simp [resolveWindow, he, h1, h2, h3]
  constructor
  · simp only [get_history]
    rw [hw]
    rfl
  · simp only [get_history]
    rw [hw]
    rw [filter_applyFrom_none, filter_applyTo_none]

/-- C9 witness: the unrecognized period `"day"` with no explicit bounds
falls through to the all-time aggregation. -/
theorem history_unknown_period_c9_w :
    get_history 1 ⟨2024, 1, 10⟩ (some "day") none none
        [⟨1, 1, ⟨2020, 5, 5⟩, "push", some "t"⟩]
      = get_history 1 ⟨2024, 1, 10⟩ none none none
        [⟨1, 1, ⟨2020, 5, 5⟩, "push", some "t"⟩]
  ∧ (get_history 1 ⟨2024, 1, 10⟩ (some "day") none none
        [⟨1, 1, ⟨2020, 5, 5⟩, "push", some "t"⟩]).total_sessions
      = ((([⟨1, 1, ⟨2020, 5, 5⟩, "push", some "t"⟩] :
            List StoredSession).filter (fun r => r.user_id == 1)).filter
          (fun r => truthy r.completed_at)).length :=
  history_unknown_period_c9 1 ⟨2024, 1, 10⟩ none none
    [⟨1, 1, ⟨2020, 5, 5⟩, "push", some "t"⟩] "day" (by decide)

/-- C4 witness: the consistency equations at a concrete weekly query, and
the all-zero response for a user whose only session is uncompleted. -/
theorem history_totals_consistent_c4_w :
    ((get_history 1 ⟨2024, 1, 10⟩ (some "week") none none
        [⟨1, 1, ⟨2024, 1, 9⟩, "push", some "t"⟩]).sessions_by_day.map (fun x => x.2)).sum
      = (get_history 1 ⟨2024, 1, 10⟩ (some "week") none none
        [⟨1, 1, ⟨2024, 1, 9⟩, "push", some "t"⟩]).total_sessions
  ∧ get_history 1 ⟨2024, 1, 10⟩ (some "week") none none
        [⟨1, 1, ⟨2024, 1, 9⟩, "push", none⟩] = ⟨0, 0, []⟩ :=
  ⟨(history_totals_consistent_c4 1 ⟨2024, 1, 10⟩ (some "week") none none
      [⟨1, 1, ⟨2024, 1, 9⟩, "push", some "t"⟩]).1,
   (history_totals_consistent_c4 1 ⟨2024, 1, 10⟩ (some "week") none none
      [⟨1, 1, ⟨2024, 1, 9⟩, "push", none⟩]).2.2.2 (by decide)⟩

/-- C8: from any state, Finish followed immediately by Done returns the
workflow state (buffer, actives, completed flag) to the initial Idle
projection, additionally closes the history panel, and the Done step
deletes no persisted session or entry row (it returns the store
untouched). -/
theorem finish_then_done_resets_c8 (s : EngineState) (db : DB) (o : FinishOutcome) :
    workflowProj (doneClicked (finishClicked s db o).1 (finishClicked s db o).2.1).1
      = workflowProj initState
  ∧ (doneClicked (finishClicked s db o).1 (finishClicked s db o).2.1).1.show_history = false
  ∧ (doneClicked (finishClicked s db o).1 (finishClicked s db o).2.1).2
      = (finishClicked s db o).2.1 := by
  refine ⟨?_, ?_, ?_⟩ <;> simp [finishClicked, doneClicked, workflowProj, initState]

/-- C2 counterexample: running Finish with `active_session_id` absent
(from a reachable state whose entry persisted only locally) emits no
message at all — in particular no warning — even though the local state
still transitions to Completed. -/
theorem finish_absent_id_no_warning_c2_cex :
    (finishClicked
        ⟨[⟨⟨2024, 1, 1⟩, "push", "chest press", 40, 10⟩], some "push",
          some ⟨2024, 1, 1⟩, none, false, none, false⟩
        ⟨[], [], 0⟩
        ⟨true, "2024-01-01T00:00:00Z", UpdateReply.noRows, none⟩).2.2 = []
  ∧ (finishClicked
        ⟨[⟨⟨2024, 1, 1⟩, "push", "chest press", 40, 10⟩], some "push",
          some ⟨2024, 1, 1⟩, none, false, none, false⟩
        ⟨[], [], 0⟩
        ⟨true, "2024-01-01T00:00:00Z", UpdateReply.noRows, none⟩).1.workout_completed
      = true :=
  ⟨rfl, rfl⟩

/-- C2 (amended): Finish always transitions the local state to Completed —
completed flag set, the read `active_session_id` recorded as the durable
hint, actives cleared — regardless of persistence outcome; the store
reporting zero rows updated and a read-back showing `completed_at` still
empty each produce a user-visible non-fatal warning; an absent
`active_session_id`, however, silently skips the persistence block and
produces no warning. -/
theorem finish_optimistic_c2 (s : EngineState) (db : DB) (o : FinishOutcome) :
    ((finishClicked s db o).1.workout_completed = true
      ∧ (finishClicked s db o).1.last_session_id = s.active_session_id
      ∧ (finishClicked s db o).1.active_daytype = none
      ∧ (finishClicked s db o).1.active_date = none
      ∧ (finishClicked s db o).1.active_session_id = none)
  ∧ (∀ sid : Nat, s.active_session_id = some sid → o.hasToken = true →
      o.reply = UpdateReply.noRows →
      (finishClicked s db o).2.2
        = [Msg.warning "Finish Workout did not update any session rows."])
  ∧ (∀ sid : Nat, s.active_session_id = some sid → o.hasToken = true →
      o.reply = UpdateReply.updated →
      truthy (match o.readBack with | some v => v | none => none) = false →
      (finishClicked s db o).2.2
        = [Msg.warning "Finish Workout completed, but completed_at is still empty."])
  ∧ (s.active_session_id = none →
      (finishClicked s db o).2.2 = [] ∧ (finishClicked s db o).2.1 = db) := by
  refine ⟨⟨?_, ?_, ?_, ?_, ?_⟩, ?_, ?_, ?_⟩
  · simp [finishClicked]
  · simp [finishClicked]
  · simp [finishClicked]
  · simp [finishClicked]
  · simp [finishClicked]
  · intro sid h ht hr
    simp [finishClicked, h, ht, hr]
  · intro sid h ht hr htr
    simp [finishClicked, h, ht, hr, htr]
  · intro h
    exact ⟨by simp [finishClicked, h], by simp [finishClicked, h]⟩

/-- C2 witness: the two store-visible failure conditions produce their
warnings at concrete inputs. -/
theorem finish_optimistic_c2_w :
    (finishClicked
        ⟨[⟨⟨2024, 1, 1⟩, "push", "chest press", 40, 10⟩], some "push",
          some ⟨2024, 1, 1⟩, some 5, false, none, false⟩
        ⟨[], [], 0⟩ ⟨true, "ts", UpdateReply.noRows, none⟩).2.2
      = [Msg.warning "Finish Workout did not update any session rows."]
  ∧ (finishClicked
        ⟨[⟨⟨2024, 1, 1⟩, "push", "chest press", 40, 10⟩], some "push",
          some ⟨2024, 1, 1⟩, some 5, false, none, false⟩
        ⟨[], [], 0⟩ ⟨true, "ts", UpdateReply.updated, some none⟩).2.2
      = [Msg.warning "Finish Workout completed, but completed_at is still empty."] :=
  ⟨(finish_optimistic_c2
      ⟨[⟨⟨2024, 1, 1⟩, "push", "chest press", 40, 10⟩], some "push",
        some ⟨2024, 1, 1⟩, some 5, false, none, false⟩
      ⟨[], [], 0⟩ ⟨true, "ts", UpdateReply.noRows, none⟩).2.1 5 rfl rfl rfl,
   (finish_optimistic_c2
      ⟨[⟨⟨2024, 1, 1⟩, "push", "chest press", 40, 10⟩], some "push",
        some ⟨2024, 1, 1⟩, some 5, false, none, false⟩
      ⟨[], [], 0⟩ ⟨true, "ts", UpdateReply.updated, some none⟩).2.2.1 5 rfl rfl rfl rfl⟩

/-- C3 counterexample: when the session insert stores nothing and the
fallback select finds zero rows, the submitted entry stays in the local
buffer, nothing reaches the store, and the handler emits no message at
all — the condition is not surfaced to the user. -/
theorem submit_zero_rows_silent_c3_cex :
    (addWorkoutSubmit 1 initState ⟨[], [], 0⟩
        ⟨"push", ⟨2024, 1, 1⟩, "chest press", 40, 10⟩
        ⟨true, SessionInsertReply.rejectedNoData, none⟩).2.2 = []
  ∧ (addWorkoutSubmit 1 initState ⟨[], [], 0⟩
        ⟨"push", ⟨2024, 1, 1⟩, "chest press", 40, 10⟩
        ⟨true, SessionInsertReply.rejectedNoData, none⟩).1.workout_rows
      = [⟨⟨2024, 1, 1⟩, "push", "chest press", 40, 10⟩]
  ∧ (addWorkoutSubmit 1 initState ⟨[], [], 0⟩
        ⟨"push", ⟨2024, 1, 1⟩, "chest press", 40, 10⟩
        ⟨true, SessionInsertReply.rejectedNoData, none⟩).2.1 = ⟨[], [], 0⟩ :=
  ⟨rfl, rfl, rfl⟩

/-- C3 (amended): when neither the session insert nor the fallback select
yields a session id, the entry remains in the local buffered rows, the
store is left unchanged (the entry is not persisted), no session id is
cached — and the handler surfaces nothing: it emits no warning or error
for this condition. -/
theorem submit_zero_rows_buffered_c3 (uid : Nat) (s : EngineState) (db : DB)
    (inp : SubmitInput) (o : SubmitOutcome)
    (hex : inp.entry_exercise ≠ ADD_EXERCISE_OPTION)
    (hdt : s.active_daytype = none) (hdate : s.active_date = none)
    (hsid : s.active_session_id = none)
    (htok : o.hasToken = true) (hrej : o.sessionReply = SessionInsertReply.rejectedNoData)
    (hmiss : latestMatching db uid inp.entry_date inp.entry_daytype = none) :
    (addWorkoutSubmit uid s db inp o).1.workout_rows
      = s.workout_rows ++
          [⟨inp.entry_date, inp.entry_daytype, inp.entry_exercise,
            inp.entry_weight, inp.entry_rep⟩]
  ∧ (addWorkoutSubmit uid s db inp o).2.1 = db
  ∧ (addWorkoutSubmit uid s db inp o).2.2 = []
  ∧ (addWorkoutSubmit uid s db inp o).1.active_session_id = none := by
  refine ⟨?_, ?_, ?_, ?_⟩ <;>
    simp [addWorkoutSubmit, hex, hdt, hdate, hsid, htok, hrej, hmiss]

/-- C3 witness: the amended behaviour at a concrete failed persistence. -/
theorem submit_zero_rows_buffered_c3_w :
    (addWorkoutSubmit 1 initState ⟨[], [], 0⟩
        ⟨"pull", ⟨2024, 3, 2⟩, "shruggs", 30, 12⟩
        ⟨true, SessionInsertReply.rejectedNoData, none⟩).1.workout_rows
      = [⟨⟨2024, 3, 2⟩, "pull", "shruggs", 30, 12⟩]
  ∧ (addWorkoutSubmit 1 initState ⟨[], [], 0⟩
        ⟨"pull", ⟨2024, 3, 2⟩, "shruggs", 30, 12⟩
        ⟨true, SessionInsertReply.rejectedNoData, none⟩).2.1 = ⟨[], [], 0⟩
  ∧ (addWorkoutSubmit 1 initState ⟨[], [], 0⟩
        ⟨"pull", ⟨2024, 3, 2⟩, "shruggs", 30, 12⟩
        ⟨true, SessionInsertReply.rejectedNoData, none⟩).2.2 = []
  ∧ (addWorkoutSubmit 1 initState ⟨[], [], 0⟩
        ⟨"pull", ⟨2024, 3, 2⟩, "shruggs", 30, 12⟩
        ⟨true, SessionInsertReply.rejectedNoData, none⟩).1.active_session_id = none := by
  have h := submit_zero_rows_buffered_c3 1 initState ⟨[], [], 0⟩
    ⟨"pull", ⟨2024, 3, 2⟩, "shruggs", 30, 12⟩
    ⟨true, SessionInsertReply.rejectedNoData, none⟩
    (by decide) rfl rfl rfl rfl rfl rfl
  exact h

/-- C7: once a session is active (pinned `active_daytype`/`active_date`),
every subsequent submission keeps the pinned values, appends the buffered
row with the pinned day type and date — ignoring whatever the UI
supplied — and any session row the step persists carries the pinned date
and day type. -/
theorem active_values_pinned_c7 (uid : Nat) (s : EngineState) (db : DB)
    (inp : SubmitInput) (o : SubmitOutcome) (d : String) (dt : Date)
    (hd : s.active_daytype = some d) (hdt : s.active_date = some dt)
    (hex : inp.entry_exercise ≠ ADD_EXERCISE_OPTION) :
    (addWorkoutSubmit uid s db inp o).1.active_daytype = some d
  ∧ (addWorkoutSubmit uid s db inp o).1.active_date = some dt
  ∧ (addWorkoutSubmit uid s db inp o).1.workout_rows
      = s.workout_rows ++ [⟨dt, d, inp.entry_exercise, inp.entry_weight, inp.entry_rep⟩]
  ∧ ∀ r ∈ (addWorkoutSubmit uid s db inp o).2.1.sessions,
      r ∈ db.sessions ∨ (r.user_id = uid ∧ r.date = dt ∧ r.daytype = d) := by
  unfold addWorkoutSubmit
  rw [if_neg hex]
  simp only [hd, hdt, Option.isSome_some, Bool.and_self, if_true, Option.getD_some]
  refine ⟨?_, ?_, ?_, ?_⟩ <;>
    (repeat' split) <;>
    simp_all [insertEntry, insertSession] <;>
    (intro r hr; rcases hr with hr | hr <;> simp_all)

/-- C7 witness: with `push`/2024-01-01 pinned, a submission supplying
`pull`/2024-02-02 is recorded under the pinned values. -/
theorem active_values_pinned_c7_w :
    (addWorkoutSubmit 1
        ⟨[], some "push", some ⟨2024, 1, 1⟩, none, false, none, false⟩ ⟨[], [], 0⟩
        ⟨"pull", ⟨2024, 2, 2⟩, "squat", 10, 5⟩
        ⟨true, SessionInsertReply.returned, none⟩).1.active_daytype = some "push"
  ∧ (addWorkoutSubmit 1
        ⟨[], some "push", some ⟨2024, 1, 1⟩, none, false, none, false⟩ ⟨[], [], 0⟩
        ⟨"pull", ⟨2024, 2, 2⟩, "squat", 10, 5⟩
        ⟨true, SessionInsertReply.returned, none⟩).1.active_date = some ⟨2024, 1, 1⟩
  ∧ (addWorkoutSubmit 1
        ⟨[], some "push", some ⟨2024, 1, 1⟩, none, false, none, false⟩ ⟨[], [], 0⟩
        ⟨"pull", ⟨2024, 2, 2⟩, "squat", 10, 5⟩
        ⟨true, SessionInsertReply.returned, none⟩).1.workout_rows
      = [⟨⟨2024, 1, 1⟩, "push", "squat", 10, 5⟩] := by
  have h := active_values_pinned_c7 1
    ⟨[], some "push", some ⟨2024, 1, 1⟩, none, false, none, false⟩ ⟨[], [], 0⟩
    ⟨"pull", ⟨2024, 2, 2⟩, "squat", 10, 5⟩
    ⟨true, SessionInsertReply.returned, none⟩ "push" ⟨2024, 1, 1⟩ rfl rfl (by decide)
  exact ⟨h.1, h.2.1, h.2.2.1⟩

lemma addWorkoutSubmit_completed_false (uid : Nat) (s : EngineState) (db : DB)
    (inp : SubmitInput) (o : SubmitOutcome) (hex : inp.entry_exercise ≠ ADD_EXERCISE_OPTION) :
    (addWorkoutSubmit uid s db inp o).1.workout_completed = false := by
  unfold addWorkoutSubmit
  rw [if_neg hex]
  by_cases hact : (s.active_daytype.isSome && s.active_date.isSome) = true <;>
    simp only [hact, if_true, if_false, Bool.not_eq_true] <;>
    (repeat' split) <;> rfl

lemma addWorkoutSubmit_cached (uid : Nat) (s : EngineState) (db : DB)
    (inp : SubmitInput) (o : SubmitOutcome) (sid : Nat)
    (hsid : s.active_session_id = some sid) :
    (addWorkoutSubmit uid s db inp o).2.1.sessions = db.sessions
  ∧ (addWorkoutSubmit uid s db inp o).1.active_session_id = some sid := by
  unfold addWorkoutSubmit
  by_cases hex : inp.entry_exercise = ADD_EXERCISE_OPTION
  · simp [hex, hsid]
  · rw [if_neg hex]
    by_cases hact : (s.active_daytype.isSome && s.active_date.isSome) = true <;>
      simp only [hact, if_true, if_false] <;>
      simp [hsid, insertEntry] <;>
      (repeat' split) <;> simp [insertEntry]

lemma addWorkoutSubmit_fresh (uid : Nat) (d : String) (dt : Date) (s : EngineState) (db : DB)
    (inp : SubmitInput) (o : SubmitOutcome)
    (hdt : s.active_daytype = none) (hdate : s.active_date = none)
    (hsid : s.active_session_id = none)
    (hd : inp.entry_daytype = d) (hdi : inp.entry_date = dt)
    (hex : inp.entry_exercise ≠ ADD_EXERCISE_OPTION)
    (htok : o.hasToken = true) (hrep : o.sessionReply ≠ SessionInsertReply.rejectedNoData)
    (h0 : countMatching db.sessions uid dt d = 0) :
    countMatching (addWorkoutSubmit uid s db inp o).2.1.sessions uid dt d = 1
  ∧ (addWorkoutSubmit uid s db inp o).1.active_session_id.isSome = true := by
  have hfil : db.sessions.filter (sessionMatches uid dt d) = [] :=
    List.length_eq_zero.mp h0
  have hrow : sessionMatches uid dt d ⟨db.nextId, uid, dt, d, none⟩ = true := by
    simp [sessionMatches]
  cases hsr : o.sessionReply with
  | rejectedNoData => exact absurd hsr hrep
  | returned =>
    cases hee : o.entryError <;>
      simp [addWorkoutSubmit, hex, hdt, hdate, hsid, hd, hdi, htok, hsr, hee, countMatching,
        insertSession, insertEntry, List.filter_append, hfil, hrow]
  | storedNoData =>
    cases hee : o.entryError <;>
      simp [addWorkoutSubmit, hex, hdt, hdate, hsid, hd, hdi, htok, hsr, hee, countMatching,
        insertSession, insertEntry, latestMatching, List.filter_append, hfil, hrow]

lemma runSubmits_cons (uid : Nat) (x : SubmitInput × SubmitOutcome)
    (xs : List (SubmitInput × SubmitOutcome)) (s : EngineState) (db : DB) :
    runSubmits uid (x :: xs) s db
      = runSubmits uid xs (addWorkoutSubmit uid s db x.1 x.2).1
          (addWorkoutSubmit uid s db x.1 x.2).2.1 := by
  simp [runSubmits]

lemma runSubmits_cached (uid : Nat) (xs : List (SubmitInput × SubmitOutcome)) :
    ∀ (s : EngineState) (db : DB) (sid : Nat), s.active_session_id = some sid →
      (runSubmits uid xs s db).2.sessions = db.sessions
    ∧ (runSubmits uid xs s db).1.active_session_id = some sid := by
  induction xs with
  | nil => intro s db sid h; exact ⟨rfl, h⟩
  | cons x rest ih =>
    intro s db sid h
    have hc := addWorkoutSubmit_cached uid s db x.1 x.2 sid h
    have hr := ih (addWorkoutSubmit uid s db x.1 x.2).1
      (addWorkoutSubmit uid s db x.1 x.2).2.1 sid hc.2
    rw [runSubmits_cons]
    exact ⟨hr.1.trans hc.1, hr.2⟩

/-- C1: starting with no active session and no stored row for the tuple,
any non-empty sequence of Add Workout submissions with a fixed day type
and date — each with a token and a store that keeps the inserted session
row, whether or not the insert response returns it (the fallback select
then recovers it) — creates exactly one session row for
`(user, date, day_type)` and leaves the recovered id cached, no matter
how many entries were appended. -/
theorem session_creation_idempotent_c1 (uid : Nat) (d : String) (dt : Date)
    (s0 : EngineState) (db0 : DB)
    (hdt : s0.active_daytype = none) (hdate : s0.active_date = none)
    (hsid : s0.active_session_id = none)
    (h0 : countMatching db0.sessions uid dt d = 0)
    (xs : List (SubmitInput × SubmitOutcome)) (hne : xs ≠ [])
    (hvalid : ∀ x ∈ xs, validSubmit d dt x) :
    countMatching (runSubmits uid xs s0 db0).2.sessions uid dt d = 1
  ∧ (runSubmits uid xs s0 db0).1.active_session_id.isSome = true := by
  cases xs with
  | nil => exact absurd rfl hne
  | cons x rest =>
    obtain ⟨hxd, hxdt, hxex, hxtok, hxrep⟩ := hvalid x (List.mem_cons_self x rest)
    have hfirst := addWorkoutSubmit_fresh uid d dt s0 db0 x.1 x.2 hdt hdate hsid hxd hxdt
      hxex hxtok hxrep h0
    obtain ⟨sid, hsid1⟩ := Option.isSome_iff_exists.mp hfirst.2
    have hrest := runSubmits_cached uid rest (addWorkoutSubmit uid s0 db0 x.1 x.2).1
      (addWorkoutSubmit uid s0 db0 x.1 x.2).2.1 sid hsid1
    rw [runSubmits_cons]
    constructor
    · rw [show (runSubmits uid rest (addWorkoutSubmit uid s0 db0 x.1 x.2).1
          (addWorkoutSubmit uid s0 db0 x.1 x.2).2.1).2.sessions
          = (addWorkoutSubmit uid s0 db0 x.1 x.2).2.1.sessions from hrest.1]
      exact hfirst.1
    · rw [hrest.2]
      rfl

/-- C1 witness: two submissions (one insert returning its row, one stored
without data and recovered by the fallback select) yield exactly one
matching session row and a cached id. -/
theorem session_creation_idempotent_c1_w :
    countMatching (runSubmits 1
        [(⟨"push", ⟨2024, 1, 1⟩, "chest press", 40, 10⟩,
          ⟨true, SessionInsertReply.returned, none⟩),
         (⟨"push", ⟨2024, 1, 1⟩, "squat", 50, 8⟩,
          ⟨true, SessionInsertReply.storedNoData, none⟩)]
        initState ⟨[], [], 0⟩).2.sessions 1 ⟨2024, 1, 1⟩ "push" = 1
  ∧ (runSubmits 1
        [(⟨"push", ⟨2024, 1, 1⟩, "chest press", 40, 10⟩,
          ⟨true, SessionInsertReply.returned, none⟩),
         (⟨"push", ⟨2024, 1, 1⟩, "squat", 50, 8⟩,
          ⟨true, SessionInsertReply.storedNoData, none⟩)]
        initState ⟨[], [], 0⟩).1.active_session_id.isSome = true :=
  session_creation_idempotent_c1 1 "push" ⟨2024, 1, 1⟩ initState ⟨[], [], 0⟩ rfl rfl rfl rfl
    [(⟨"push", ⟨2024, 1, 1⟩, "chest press", 40, 10⟩,
      ⟨true, SessionInsertReply.returned, none⟩),
     (⟨"push", ⟨2024, 1, 1⟩, "squat", 50, 8⟩,
      ⟨true, SessionInsertReply.storedNoData, none⟩)]
    (by decide) (by decide)

lemma stepAction_preserves (uid : Nat) (x : EngineState × DB) (a : UiAction)
    (h : x.1.workout_completed = true → x.1.workout_rows ≠ []) :
    (stepAction uid x a).1.workout_completed = true →
    (stepAction uid x a).1.workout_rows ≠ [] := by
  rcases x with ⟨s, db⟩
  cases a with
  | submitClick inp o =>
    by_cases hex : inp.entry_exercise = ADD_EXERCISE_OPTION
    · simpa [stepAction, addWorkoutSubmit, hex] using h
    · intro hc
      exact absurd hc (by simp [stepAction, addWorkoutSubmit_completed_false uid s db inp o hex])
  | finishClick o =>
    by_cases hfd : finish_disabled s.workout_rows = true
    · simpa [stepAction, hfd] using h
    · intro _
      have hrows : s.workout_rows ≠ [] := by
        simpa [finish_disabled, List.length_eq_zero] using hfd
      simpa [stepAction, hfd, finishClicked] using hrows
  | doneClick =>
    simp [stepAction, doneClicked]

lemma runActions_invariant (uid : Nat) (db0 : DB) (acts : List UiAction) :
    (runActions uid db0 acts).1.workout_completed = true →
    (runActions uid db0 acts).1.workout_rows ≠ [] := by
  suffices h : ∀ (x : EngineState × DB),
      (x.1.workout_completed = true → x.1.workout_rows ≠ []) →
      ∀ acts : List UiAction,
        ((acts.foldl (stepAction uid) x).1.workout_completed = true →
          (acts.foldl (stepAction uid) x).1.workout_rows ≠ []) by
    exact h (initState, db0) (by simp [initState]) acts
  intro x hx acts
  induction acts generalizing x with
  | nil => exact hx
  | cons a rest ih => exact ih (stepAction uid x a) (stepAction_preserves uid x a hx)

/-- C10: the Finish Workout button is disabled exactly when the buffered
rows list is empty, so the Finish handler can never run from an empty
buffer, and in every state reachable through UI events a set completed
flag implies a non-empty buffer (every reachable Completed state was
entered with at least one buffered entry). -/
theorem finish_guard_c10 (uid : Nat) (db0 : DB) :
    (∀ rows : List WorkoutRow, finish_disabled rows = true ↔ rows = [])
  ∧ (∀ acts : List UiAction,
      (runActions uid db0 acts).1.workout_completed = true →
      (runActions uid db0 acts).1.workout_rows ≠ []) :=
  ⟨fun rows => by simp [finish_disabled, List.length_eq_zero],
   runActions_invariant uid db0⟩

/-- C10 witness: a concrete submit-then-finish run reaches Completed and
indeed holds a buffered entry. -/
theorem finish_guard_c10_w :
    (runActions 1 ⟨[], [], 0⟩
        [UiAction.submitClick ⟨"push", ⟨2024, 1, 1⟩, "squat", 40, 10⟩
            ⟨true, SessionInsertReply.returned, none⟩,
         UiAction.finishClick ⟨true, "ts", UpdateReply.updated, some (some "ts")⟩]).1.workout_rows
      ≠ [] :=
  (finish_guard_c10 1 ⟨[], [], 0⟩).2
    [UiAction.submitClick ⟨"push", ⟨2024, 1, 1⟩, "squat", 40, 10⟩
        ⟨true, SessionInsertReply.returned, none⟩,
     UiAction.finishClick ⟨true, "ts", UpdateReply.updated, some (some "ts")⟩]
    (by decide)

/-- C6: `POST /daytypes` rejects with HTTP 400 a name that is empty after
trimming, and one whose trimmed-lowercased key equals a built-in in any
casing or surrounding whitespace; and when the normalized key matches one
of the user's own prior custom day types it returns that stored row with
`created = false` and inserts nothing. -/
theorem create_daytype_validation_c6 (store : List DaytypeRow) (uid : Nat) (nm : String) :
    (pyStrip nm = "" →
      create_daytype store uid nm
        = (DaytypeResult.httpError 400 "Day type name is required.", store))
  ∧ (pyStrip nm ≠ "" → pyNormalize (pyStrip nm) ∈ PREDEFINED_DAYTYPES →
      create_daytype store uid nm
        = (DaytypeResult.httpError 400 "That day type already exists.", store))
  ∧ (∀ row : DaytypeRow, pyStrip nm ≠ "" → pyNormalize (pyStrip nm) ∉ PREDEFINED_DAYTYPES →
      store.find? (fun r => r.user_id == uid && r.daytype_key == pyNormalize (pyStrip nm))
        = some row →
      row ∈ store ∧ row.user_id = uid ∧ row.daytype_key = pyNormalize (pyStrip nm)
      ∧ create_daytype store uid nm = (DaytypeResult.ok row.daytype_name false, store)) := by
  refine ⟨?_, ?_, ?_⟩
  · intro h
    simp [create_daytype, h]
  · intro h hmem
    simp [create_daytype, h, hmem]
  · intro row h hnmem hfind
    have hp := List.find?_some hfind
    simp only [Bool.and_eq_true, beq_iff_eq] at hp
    exact ⟨List.mem_of_find?_eq_some hfind, hp.1, hp.2,
      by simp [create_daytype, h, hnmem, hfind]⟩

/-- C6 witness: the three behaviours at concrete inputs — blank name,
`" PUSH "` colliding with the built-in, and `" CARDIO "` matching the
user's stored `Cardio` row. -/
theorem create_daytype_validation_c6_w :
    create_daytype [] 7 "   "
      = (DaytypeResult.httpError 400 "Day type name is required.", [])
  ∧ create_daytype [] 7 " PUSH "
      = (DaytypeResult.httpError 400 "That day type already exists.", [])
  ∧ create_daytype [⟨7, "Cardio", "cardio"⟩] 7 " CARDIO "
      = (DaytypeResult.ok "Cardio" false, [⟨7, "Cardio", "cardio"⟩]) :=
  ⟨(create_daytype_validation_c6 [] 7 "   ").1 (by decide),
   (create_daytype_validation_c6 [] 7 " PUSH ").2.1 (by decide) (by decide),
   ((create_daytype_validation_c6 [⟨7, "Cardio", "cardio"⟩] 7 " CARDIO ").2.2
      ⟨7, "Cardio", "cardio"⟩ (by decide) (by decide) (by decide)).2.2.2⟩
